import Mathlib

/-!
Verification of the MCP HTTP gateway adapter
(`packages/mcp-core/mcp_http_adapter.py`, the variant spanning the
`ExecuteRequest` model at lines 1245-1249 through the `execute` handler at
lines 1347-1397, which is the variant all claims cite).

The adapter is embedded shallowly: the mutable module state (the critical
token bucket, the durable memory store, the MCP server/provider) is passed
explicitly, and `execute` returns, besides the HTTP response, the new bucket
state, the list of approval records successfully written, and the list of
provider invocations performed.
-/

/-- A JSON-like value, the type of tool arguments and provider results. -/
inductive JVal where
  | null : JVal
  | bool : Bool → JVal
  | str : String → JVal
  | int : Int → JVal
  | arr : List JVal → JVal
  | obj : List (String × JVal) → JVal

/-- Python truthiness (`bool(x)`) on JSON-like values: `None`, `False`, `0`,
`""`, `[]` and `{}` are falsy, everything else truthy. Used by
`bool(req.arguments.get("_approved", False))` at line 1364. -/
def truthy : JVal → Bool
  | .null => false
  | .bool b => b
  | .str s => !s.isEmpty
  | .int n => n != 0
  | .arr l => !l.isEmpty
  | .obj l => !l.isEmpty

/-- One normalized parameter of a registry entry, as produced by
`_build_registry` (lines 1299-1306) from an `inputSchema` property. -/
structure Param where
  name : String
  ptype : String
  pdescription : String
  required : Bool
  deriving DecidableEq, Repr

/-- One registry entry (`reg[name]`, lines 1309-1315). -/
structure ToolEntry where
  name : String
  description : String
  parameters : List Param
  rate_limit_level : String
  approval_required : Bool
  deriving DecidableEq, Repr

/-- One property of a raw tool's `inputSchema.properties` mapping: the
`type` and `description` keys, each possibly absent (lines 1302-1304 read
them with defaults `"string"` and `""`). -/
structure PropSchema where
  ptype : Option String
  pdescription : Option String
  deriving DecidableEq, Repr

/-- A raw tool's `inputSchema`: its `properties` mapping (insertion
ordered) and its `required` list (`schema.get("required") or []` is
modelled by an empty list standing for an absent key). -/
structure InputSchema where
  properties : List (String × PropSchema)
  required : List String
  deriving DecidableEq, Repr

/-- A governance classification dict as supplied by the external governance
source: its `level` key (`none` models the key being absent, so that
`gov.get("level")` is `None` and `gov.get("level", "MEDIUM")` is
`"MEDIUM"`) and its `allowed` key. -/
structure Gov where
  level : Option String
  allowed : Bool
  deriving DecidableEq, Repr

/-- A raw tool descriptor as assembled by `_load_tools_from_main`
(lines 1228-1242): name, description, optional input schema
(`t.get("inputSchema") or {}` makes `none` behave as the empty schema) and
optional governance dict (`t.get("governance") or {"level": "MEDIUM",
"allowed": True}` makes `none` behave as the MEDIUM default). -/
structure ToolRaw where
  name : String
  description : String
  inputSchema : Option InputSchema
  governance : Option Gov
  deriving DecidableEq, Repr

/-- The parameter list built from a schema (lines 1299-1306). -/
def buildParams (schema : InputSchema) : List Param :=
  schema.properties.map fun kv =>
    { name := kv.1
      ptype := kv.2.ptype.getD "string"
      pdescription := kv.2.pdescription.getD ""
      required := decide (kv.1 ∈ schema.required) }

/-- The loop body of `_build_registry` (lines 1297-1315): the registry
entry built from one raw descriptor. `gov = t.get("governance") or
{"level": "MEDIUM", "allowed": True}`; `rate_limit_level =
gov.get("level", "MEDIUM")`; `approval_required = gov.get("level") ==
"CRITICAL"`. -/
def buildEntry (t : ToolRaw) : ToolEntry :=
  let schema := t.inputSchema.getD ⟨[], []⟩
  let gov := t.governance.getD ⟨some "MEDIUM", true⟩
  { name := t.name
    description := t.description
    parameters := buildParams schema
    rate_limit_level := gov.level.getD "MEDIUM"
    approval_required := gov.level = some "CRITICAL" }

/-- Python dict assignment `reg[name] = v`: replace an existing binding in
place, otherwise append (insertion order preserved). -/
def insertReplace (reg : List (String × ToolEntry)) (k : String) (v : ToolEntry) :
    List (String × ToolEntry) :=
  if reg.any (fun p => p.1 = k) then
    reg.map fun p => if p.1 = k then (k, v) else p
  else
    reg ++ [(k, v)]

/-- `_build_registry` (lines 1293-1316): fold the raw descriptors into a
name-keyed mapping. -/
def build_registry (tools : List ToolRaw) : List (String × ToolEntry) :=
  tools.foldl (fun reg t => insertReplace reg t.name (buildEntry t)) []

/-- `_Bucket` (lines 1268-1287): the in-memory token bucket for CRITICAL
operations. Times and token counts are rationals (the source uses floats;
no claim depends on rounding). `_critical_bucket = _Bucket(5, 3600)`. -/
structure Bucket where
  max_tokens : ℚ
  refill_seconds : ℚ
  tokens : ℚ
  last : ℚ
  deriving DecidableEq, Repr

/-- `_Bucket.can_consume` (lines 1276-1287): lazily refill (when time has
advanced) by `elapsed * max_tokens / refill_seconds`, capped at
`max_tokens`, then check-and-decrement. Returns the decision and the
mutated bucket (the refill mutation persists even when consumption is
refused). -/
def Bucket.can_consume (b : Bucket) (now : ℚ) (amt : ℚ) : Bool × Bucket :=
  let elapsed := now - b.last
  let b' :=
    if 0 < elapsed then
      { b with
        tokens := min b.max_tokens (b.tokens + elapsed * (b.max_tokens / b.refill_seconds))
        last := now }
    else b
  if amt ≤ b'.tokens then (true, { b' with tokens := b'.tokens - amt })
  else (false, b')

/-- The request body model (lines 1245-1249). Note: this variant's
`ExecuteRequest` declares only these four fields; in particular it has no
`background` and no `approved` field. -/
structure ExecuteRequest where
  tool_name : String
  arguments : List (String × JVal)
  dry_run : Bool
  request_id : Option String

/-- The wire-level body a caller may POST, possibly carrying a
`background` flag. Pydantic ignores JSON keys that are not declared on the
model, so parsing drops the flag. -/
structure WireRequest where
  tool_name : String
  arguments : List (String × JVal)
  dry_run : Bool
  background : Bool
  request_id : Option String

/-- Parsing a wire body into the declared `ExecuteRequest` model
(lines 1245-1249): the undeclared `background` key is discarded. -/
def parseRequest (w : WireRequest) : ExecuteRequest :=
  { tool_name := w.tool_name
    arguments := w.arguments
    dry_run := w.dry_run
    request_id := w.request_id }

/-- The `result` field of a JSON response body: the approval-pending
object `{"approval_required": ..., "memory_id": ...}` (line 1374), the
dry-run object `{"dry_run": true, "parameters_provided": [...]}`
(line 1377), a provider payload (line 1394), or absent (error body,
line 1397). -/
inductive RResult where
  | approvalInfo (approval_required : Bool) (memory_id : Option String)
  | dryRunInfo (parameters_provided : List String)
  | payload (v : JVal)
  | absent

/-- A JSON response body plus its HTTP status, mirroring the
`JSONResponse` contents built at lines 1374, 1377, 1394 and 1397. -/
structure Response where
  status : Nat
  success : Bool
  request_id : String
  tool_name : String
  result : RResult
  error : Option String
  execution_time_ms : ℚ
  governance_level : Option String

/-- A raised `HTTPException` (status code and detail). -/
structure HErr where
  status : Nat
  detail : String
  deriving DecidableEq, Repr

/-- The approval record written to local memory (lines 1367-1369):
`{"type": "tool_request", "tool_name": ..., "arguments": ...,
"requires_approval": True, "approval_status": "pending",
"requested_by": x_mcp_key or "anonymous"}`. -/
structure MemRecord where
  mtype : String
  tool_name : String
  arguments : List (String × JVal)
  requires_approval : Bool
  approval_status : String
  requested_by : String

/-- `x_mcp_key or "anonymous"`: an absent or empty key string falls back
to `"anonymous"`. -/
def requestedBy : Option String → String
  | some s => if s.isEmpty then "anonymous" else s
  | none => "anonymous"

/-- The approval record `execute` persists for a pending request
(lines 1367-1368). -/
def pendingRecord (req : ExecuteRequest) (x_mcp_key : Option String) : MemRecord :=
  { mtype := "tool_request"
    tool_name := req.tool_name
    arguments := req.arguments
    requires_approval := true
    approval_status := "pending"
    requested_by := requestedBy x_mcp_key }

/-- The adapter's environment: configuration (`SAFE_MODE`, `MCP_API_KEY`,
lines 1263-1264), the registry snapshot, the durable memory store
(`write_local_memory`; `none` models the write raising), whether the MCP
server exposes `call_tool` (lines 1380-1382; `false` also covers a failed
module load), and the provider itself (`mcp_server.call_tool`;
`Except.error` models the call raising). -/
structure Env where
  safeMode : Bool
  apiKey : String
  registry : List (String × ToolEntry)
  store : MemRecord → Option String
  serverHasCallTool : Bool
  provider : String → List (String × JVal) → Except String JVal

/-- `_validate_key` (lines 1341-1344): under `SAFE_MODE` the key must
equal the configured secret or the request must declare itself read-only;
otherwise everything passes. -/
def validate_key (env : Env) (x_mcp_key : Option String) (read_only : Bool) : Bool :=
  if env.safeMode then (x_mcp_key = some env.apiKey) || read_only
  else true

/-- `bool(req.arguments.get("_approved", False))` (line 1364): the
caller-asserted approval marker, read from the arguments mapping. -/
def alreadyApproved (req : ExecuteRequest) : Bool :=
  truthy ((req.arguments.lookup "_approved").getD (.bool false))

/-- Stand-in for the truncated-sha256 correlation id generated at
line 1350 when the request carries none; no claim depends on its value,
only on it being some concrete string. -/
def genRid (toolName : String) (now : ℚ) : String :=
  toolName ++ "@" ++ toString now.num ++ "/" ++ toString now.den

/-- Everything `execute` produces: the HTTP outcome (`Except.error` models
a raised `HTTPException`), the bucket state after the call, the approval
records successfully written, and the provider invocations performed. -/
structure ExecResult where
  response : Except HErr Response
  bucket : Bucket
  written : List MemRecord
  invoked : List (String × List (String × JVal))

/-- The rate-limiting step of `execute` (lines 1360-1362): only a
CRITICAL-tier tool touches `_critical_bucket`; any other tier passes with
the bucket untouched. -/
def rateStep (tool : ToolEntry) (bucket : Bucket) (now : ℚ) : Bool × Bucket :=
  if tool.rate_limit_level = "CRITICAL" then bucket.can_consume now 1
  else (true, bucket)

/-- The `/mcp/execute` handler (lines 1347-1397), with the module state
passed explicitly: `bucket` is `_critical_bucket`, `now` the wall clock at
entry, `elapsedMs` the measured synchronous execution time. The source
order is kept exactly: registry lookup (1352), key validation (1357),
CRITICAL rate limiting (1360-1362), approval interception (1364-1374),
dry-run (1376-1377), then synchronous dispatch (1379-1397). -/
def execute (env : Env) (bucket : Bucket) (now elapsedMs : ℚ)
    (req : ExecuteRequest) (x_mcp_key : Option String) (x_mcp_readonly : Bool) :
    ExecResult :=
  let rid := req.request_id.getD (genRid req.tool_name now)
  match env.registry.lookup req.tool_name with
  | none => ⟨.error ⟨400, "Unknown tool"⟩, bucket, [], []⟩
  | some tool =>
    if validate_key env x_mcp_key x_mcp_readonly = false then
      ⟨.error ⟨401, "Unauthorized: X-MCP-KEY invalid or missing"⟩, bucket, [], []⟩
    else
      let rs := rateStep tool bucket now
      if rs.1 = false then
        ⟨.error ⟨429, "Critical operation rate limit exceeded"⟩, rs.2, [], []⟩
      else
        if tool.approval_required ∧ alreadyApproved req = false then
          let memRec := pendingRecord req x_mcp_key
          match env.store memRec with
          | some mid =>
            ⟨.ok ⟨200, false, rid, req.tool_name, .approvalInfo true (some mid),
                some "approval_required", 0, some tool.rate_limit_level⟩,
              rs.2, [memRec], []⟩
          | none =>
            ⟨.ok ⟨200, false, rid, req.tool_name, .approvalInfo true none,
                some "approval_required", 0, some tool.rate_limit_level⟩,
              rs.2, [], []⟩
        else if req.dry_run then
          ⟨.ok ⟨200, true, rid, req.tool_name,
              .dryRunInfo (req.arguments.map Prod.fst),
              none, 0, some tool.rate_limit_level⟩,
            rs.2, [], []⟩
        else if env.serverHasCallTool = false then
          ⟨.ok ⟨500, false, rid, req.tool_name, .absent,
              some "MCP server missing call_tool", 0, some tool.rate_limit_level⟩,
            rs.2, [], []⟩
        else
          match env.provider req.tool_name req.arguments with
          | .ok v =>
            ⟨.ok ⟨200, true, rid, req.tool_name, .payload v,
                none, elapsedMs, some tool.rate_limit_level⟩,
              rs.2, [], [(req.tool_name, req.arguments)]⟩
          | .error msg =>
            ⟨.ok ⟨500, false, rid, req.tool_name, .absent,
                some msg, 0, some tool.rate_limit_level⟩,
              rs.2, [], [(req.tool_name, req.arguments)]⟩

/-! Concrete fixtures used by counterexamples and witnesses. -/

/-- A LOW-tier `echo` tool with one required string parameter `text`. -/
def echoTool : ToolEntry :=
  { name := "echo"
    description := "echo a string"
    parameters := [⟨"text", "string", "the text to echo", true⟩]
    rate_limit_level := "LOW"
    approval_required := false }

/-- A CRITICAL-tier tool; in registries built by `build_registry` a
CRITICAL tool always has `approval_required = true`. -/
def dropTool : ToolEntry :=
  { name := "drop_all_data"
    description := "destructive operation"
    parameters := [⟨"confirm", "string", "", true⟩]
    rate_limit_level := "CRITICAL"
    approval_required := true }

/-- An environment with both fixtures registered, enforcement on, a
working store and a provider that echoes a fixed payload. -/
def envA : Env :=
  { safeMode := true
    apiKey := "secret-key"
    registry := [("echo", echoTool), ("drop_all_data", dropTool)]
    store := fun _ => some "mem-1"
    serverHasCallTool := true
    provider := fun _ _ => .ok (.str "echoed") }

/-- `envA` with a failing durable store (`write_local_memory` raises). -/
def envStoreDown : Env :=
  { envA with store := fun _ => none }

/-- A full critical bucket (`_Bucket(5, 3600)` fresh at time 0). -/
def fullBucket : Bucket := ⟨5, 3600, 5, 0⟩

/-- An exhausted critical bucket at time 0. -/
def emptyBucket : Bucket := ⟨5, 3600, 0, 0⟩

example : (execute envA fullBucket 0 0
    ⟨"drop_all_data", [], true, some "r1"⟩ (some "secret-key") false).response =
    .ok ⟨200, false, "r1", "drop_all_data", .approvalInfo true (some "mem-1"),
      some "approval_required", 0, some "CRITICAL"⟩ := by
  norm_num [execute, rateStep, Bucket.can_consume, validate_key, alreadyApproved, truthy,
    pendingRecord, requestedBy, envA, fullBucket, dropTool, echoTool, List.lookup] <;> simp_all

example : (execute envA fullBucket 0 0
    ⟨"drop_all_data", [], true, some "r1"⟩ (some "secret-key") false).bucket.tokens = 4 := by
  norm_num [execute, rateStep, Bucket.can_consume, validate_key, alreadyApproved, truthy,
    pendingRecord, requestedBy, envA, fullBucket, dropTool, echoTool, List.lookup] <;> simp_all

example : (execute envA fullBucket 0 0
    ⟨"echo", [], true, some "r2"⟩ (some "secret-key") false).response =
    .ok ⟨200, true, "r2", "echo", .dryRunInfo [], none, 0, some "LOW"⟩ := by
  norm_num [execute, rateStep, Bucket.can_consume, validate_key, alreadyApproved, truthy,
    envA, fullBucket, dropTool, echoTool, List.lookup] <;> simp_all

example : (execute envA emptyBucket 0 0
    ⟨"drop_all_data", [("confirm", .str "yes")], false, some "r3"⟩
    (some "secret-key") false).response =
    .error ⟨429, "Critical operation rate limit exceeded"⟩ := by
  norm_num [execute, rateStep, Bucket.can_consume, validate_key,
    envA, emptyBucket, dropTool, echoTool, List.lookup] <;> simp_all

example : (execute envA fullBucket 0 0
    ⟨"nope", [], false, some "r4"⟩ (some "wrong") false).response =
    .error ⟨400, "Unknown tool"⟩ := by
  norm_num [execute, envA, List.lookup] <;> simp_all

example : (execute envA fullBucket 0 12
    ⟨"echo", [("text", .str "hi")], false, some "r5"⟩ (some "secret-key") false).response =
    .ok ⟨200, true, "r5", "echo", .payload (.str "echoed"), none, 12, some "LOW"⟩ := by
  norm_num [execute, rateStep, Bucket.can_consume, validate_key, alreadyApproved, truthy,
    envA, fullBucket, dropTool, echoTool, List.lookup] <;> simp_all

example : (execute envA fullBucket 0 0
    ⟨"drop_all_data", [("_approved", .bool true)], false, some "r6"⟩
    (some "secret-key") false).invoked =
    [("drop_all_data", [("_approved", .bool true)])] := by
  norm_num [execute, rateStep, Bucket.can_consume, validate_key, alreadyApproved, truthy,
    envA, fullBucket, dropTool, echoTool, List.lookup] <;> simp_all

/-! Branch characterizations of `execute`, used by the claim theorems. -/

theorem execute_unknown_tool (env : Env) (bucket : Bucket) (now ems : ℚ)
    (req : ExecuteRequest) (k : Option String) (ro : Bool)
    (hl : env.registry.lookup req.tool_name = none) :
    execute env bucket now ems req k ro =
      ⟨.error ⟨400, "Unknown tool"⟩, bucket, [], []⟩ := by
  simp only [execute, hl]

theorem execute_unauthorized (env : Env) (bucket : Bucket) (now ems : ℚ)
    (req : ExecuteRequest) (k : Option String) (ro : Bool) (tool : ToolEntry)
    (hl : env.registry.lookup req.tool_name = some tool)
    (hv : validate_key env k ro = false) :
    execute env bucket now ems req k ro =
      ⟨.error ⟨401, "Unauthorized: X-MCP-KEY invalid or missing"⟩, bucket, [], []⟩ := by
  simp only [execute, hl, hv, if_pos]

theorem execute_rate_limited (env : Env) (bucket : Bucket) (now ems : ℚ)
    (req : ExecuteRequest) (k : Option String) (ro : Bool) (tool : ToolEntry)
    (hl : env.registry.lookup req.tool_name = some tool)
    (hv : validate_key env k ro = true)
    (hr : (rateStep tool bucket now).1 = false) :
    execute env bucket now ems req k ro =
      ⟨.error ⟨429, "Critical operation rate limit exceeded"⟩,
        (rateStep tool bucket now).2, [], []⟩ := by
  simp only [execute, hl, hv, hr]
  simp

theorem execute_pending (env : Env) (bucket : Bucket) (now ems : ℚ)
    (req : ExecuteRequest) (k : Option String) (ro : Bool) (tool : ToolEntry)
    (hl : env.registry.lookup req.tool_name = some tool)
    (hv : validate_key env k ro = true)
    (hr : (rateStep tool bucket now).1 = true)
    (ha : tool.approval_required = true)
    (hna : alreadyApproved req = false) :
    execute env bucket now ems req k ro =
      ⟨.ok ⟨200, false, req.request_id.getD (genRid req.tool_name now), req.tool_name,
          .approvalInfo true (env.store (pendingRecord req k)),
          some "approval_required", 0, some tool.rate_limit_level⟩,
        (rateStep tool bucket now).2,
        (match env.store (pendingRecord req k) with
          | some _ => [pendingRecord req k]
          | none => []),
        []⟩ := by
  simp only [execute, hl, hv, hr, ha, hna]
  cases hs : env.store (pendingRecord req k) <;> simp [hs]

theorem execute_dry (env : Env) (bucket : Bucket) (now ems : ℚ)
    (req : ExecuteRequest) (k : Option String) (ro : Bool) (tool : ToolEntry)
    (hl : env.registry.lookup req.tool_name = some tool)
    (hv : validate_key env k ro = true)
    (hr : (rateStep tool bucket now).1 = true)
    (hna : ¬(tool.approval_required = true ∧ alreadyApproved req = false))
    (hd : req.dry_run = true) :
    execute env bucket now ems req k ro =
      ⟨.ok ⟨200, true, req.request_id.getD (genRid req.tool_name now), req.tool_name,
          .dryRunInfo (req.arguments.map Prod.fst),
          none, 0, some tool.rate_limit_level⟩,
        (rateStep tool bucket now).2, [], []⟩ := by
  simp only [execute, hl, hv, hr, hd]
  simp [hna]

theorem execute_sync (env : Env) (bucket : Bucket) (now ems : ℚ)
    (req : ExecuteRequest) (k : Option String) (ro : Bool) (tool : ToolEntry)
    (hl : env.registry.lookup req.tool_name = some tool)
    (hv : validate_key env k ro = true)
    (hr : (rateStep tool bucket now).1 = true)
    (hna : ¬(tool.approval_required = true ∧ alreadyApproved req = false))
    (hd : req.dry_run = false)
    (hs : env.serverHasCallTool = true) :
    execute env bucket now ems req k ro =
      ⟨.ok (match env.provider req.tool_name req.arguments with
          | .ok v =>
            ⟨200, true, req.request_id.getD (genRid req.tool_name now), req.tool_name,
              .payload v, none, ems, some tool.rate_limit_level⟩
          | .error msg =>
            ⟨500, false, req.request_id.getD (genRid req.tool_name now), req.tool_name,
              .absent, some msg, 0, some tool.rate_limit_level⟩),
        (rateStep tool bucket now).2, [],
        [(req.tool_name, req.arguments)]⟩ := by
  simp only [execute, hl, hv, hr, hd, hs]
  cases hp : env.provider req.tool_name req.arguments <;> simp [hna, hp]

/-- `k` successive `can_consume(1)` attempts against a bucket, all at the
same instant `now` (the "no elapsed time" scenario of the spec). -/
def consumeIters (b : Bucket) (now : ℚ) : ℕ → Bucket
  | 0 => b
  | k + 1 => (Bucket.can_consume (consumeIters b now k) now 1).2

theorem consumeIters_fresh (cap : ℕ) (W now : ℚ) (k : ℕ) (hk : k ≤ cap) :
    consumeIters ⟨cap, W, cap, now⟩ now k = ⟨cap, W, (cap : ℚ) - k, now⟩ := by
  induction k with
  | zero => simp [consumeIters]
  | succ n ih =>
    have hn : n ≤ cap := Nat.le_of_succ_le hk
    have h1 : (1 : ℚ) ≤ (cap : ℚ) - n := by
      have : (n : ℚ) + 1 ≤ (cap : ℚ) := by exact_mod_cast hk
      linarith
    rw [consumeIters, ih hn]
    simp only [Bucket.can_consume, sub_self]
    rw [if_neg (lt_irrefl 0), if_pos h1]
    simp only
    congr 1
    push_cast
    ring

/-- C4: for the CRITICAL-tier token bucket with capacity `cap` and refill
window `W`: (i) the bucket refills lazily at consumption time as
`tokens = min(capacity, tokens + elapsed * capacity/refillWindow)` and
consumption is a check-and-decrement against the refilled value; (ii)
starting from a full bucket, each of the first `cap` consume attempts with
no elapsed time succeeds; (iii) the `(cap+1)`-th attempt within the same
window is rejected; (iv) once enough time `e` has elapsed for at least one
token to regenerate (`1 ≤ e * cap/W`), a subsequent attempt succeeds
again. -/
theorem C4_token_bucket (cap : ℕ) (W now e : ℚ) (hcap : 1 ≤ cap) (hW : 0 < W)
    (he : 0 < e) (hregen : 1 ≤ e * (cap / W)) :
    (∀ (b : Bucket) (t amt : ℚ), b.last < t →
      (((b.can_consume t amt).1 = true) ↔
        amt ≤ min b.max_tokens
          (b.tokens + (t - b.last) * (b.max_tokens / b.refill_seconds))) ∧
      (b.can_consume t amt).2.tokens =
        (if amt ≤ min b.max_tokens
            (b.tokens + (t - b.last) * (b.max_tokens / b.refill_seconds))
         then min b.max_tokens
            (b.tokens + (t - b.last) * (b.max_tokens / b.refill_seconds)) - amt
         else min b.max_tokens
            (b.tokens + (t - b.last) * (b.max_tokens / b.refill_seconds)))) ∧
    (∀ k : ℕ, k < cap →
      ((consumeIters ⟨cap, W, cap, now⟩ now k).can_consume now 1).1 = true) ∧
    (((consumeIters ⟨cap, W, cap, now⟩ now cap).can_consume now 1).1 = false) ∧
    ((((consumeIters ⟨cap, W, cap, now⟩ now cap).can_consume now 1).2).can_consume
        (now + e) 1).1 = true := by
  have hfresh := consumeIters_fresh cap W now
  refine ⟨?_, ?_, ?_, ?_⟩
  · intro b t amt hlt
    have helapsed : 0 < t - b.last := sub_pos.mpr hlt
    constructor
    · simp only [Bucket.can_consume, if_pos helapsed]
      split_ifs with h <;> simp [h]
    · simp only [Bucket.can_consume, if_pos helapsed]
      split_ifs with h <;> simp [h]
  · intro k hk
    rw [hfresh k (Nat.le_of_lt hk)]
    have h1 : (1 : ℚ) ≤ (cap : ℚ) - k := by
      have : (k : ℚ) + 1 ≤ (cap : ℚ) := by exact_mod_cast hk
      linarith
    simp only [Bucket.can_consume, sub_self]
    rw [if_neg (lt_irrefl 0), if_pos h1]
  · rw [hfresh cap le_rfl]
    simp only [Bucket.can_consume, sub_self]
    norm_num
  · rw [hfresh cap le_rfl]
    have hstuck : (Bucket.can_consume ⟨cap, W, (cap : ℚ) - cap, now⟩ now 1) =
        (false, ⟨cap, W, (cap : ℚ) - cap, now⟩) := by
      simp only [Bucket.can_consume, sub_self]
      norm_num
    rw [hstuck]
    have helapsed : (0 : ℚ) < now + e - now := by linarith
    simp only [Bucket.can_consume, if_pos helapsed]
    have hcapQ : (1 : ℚ) ≤ (cap : ℚ) := by exact_mod_cast hcap
    have htok : (1 : ℚ) ≤ min (cap : ℚ)
        ((cap : ℚ) - cap + (now + e - now) * ((cap : ℚ) / W)) := by
      refine le_min hcapQ ?_
      have h2 : (now + e - now) = e := by ring
      rw [h2]
      have h3 : ((cap : ℚ) - cap) = 0 := by ring
      rw [h3]
      linarith
    rw [if_pos htok]

/-- Witness for C4 at the source configuration `_Bucket(5, 3600)` with a
720-second wait (exactly one regenerated token). -/
theorem C4_token_bucket_witness :
    (1 ≤ 5) ∧ ((0 : ℚ) < 3600) ∧ ((0 : ℚ) < 720) ∧
      ((1 : ℚ) ≤ 720 * ((5 : ℕ) / (3600 : ℚ))) ∧
      (((consumeIters ⟨(5 : ℕ), 3600, (5 : ℕ), 0⟩ 0 5).can_consume 0 1).1 = false) :=
  ⟨by norm_num, by norm_num, by norm_num, by norm_num,
    (C4_token_bucket 5 3600 0 720 (by norm_num) (by norm_num) (by norm_num)
      (by norm_num)).2.2.1⟩

/-- The response is the rate-limited rejection (HTTP 429). -/
def isRateLimitedOutcome : Except HErr Response → Prop
  | .error e => e.status = 429
  | .ok _ => False

/-- The response is the approval-pending outcome: a 200 whose `result` is
the `approval_required` object. -/
def isPendingOutcome : Except HErr Response → Prop
  | .ok r => ∃ mid, r.result = RResult.approvalInfo true mid ∧ r.status = 200
  | .error _ => False

/-- The response is the dry-run outcome. -/
def isDryRunOutcome : Except HErr Response → Prop
  | .ok r => ∃ ps, r.result = RResult.dryRunInfo ps
  | .error _ => False

/-- A dry-run request never reaches the synchronous dispatch, whatever the
tool, auth, rate or approval state: `invoked` stays empty. -/
theorem execute_dry_no_invoke (env : Env) (bucket : Bucket) (now ems : ℚ)
    (req : ExecuteRequest) (k : Option String) (ro : Bool)
    (hd : req.dry_run = true) :
    (execute env bucket now ems req k ro).invoked = [] := by
  cases hl : env.registry.lookup req.tool_name with
  | none => rw [execute_unknown_tool env bucket now ems req k ro hl]
  | some tool =>
    by_cases hv : validate_key env k ro = true
    · by_cases hrs : (rateStep tool bucket now).1 = true
      · by_cases hap : tool.approval_required = true ∧ alreadyApproved req = false
        · rw [execute_pending env bucket now ems req k ro tool hl hv hrs hap.1 hap.2]
        · rw [execute_dry env bucket now ems req k ro tool hl hv hrs hap hd]
      · have hrs' : (rateStep tool bucket now).1 = false := by
          cases h : (rateStep tool bucket now).1
          · rfl
          · exact absurd h hrs
        rw [execute_rate_limited env bucket now ems req k ro tool hl hv hrs']
    · have hv' : validate_key env k ro = false := by
        cases h : validate_key env k ro
        · rfl
        · exact absurd h hv
      rw [execute_unauthorized env bucket now ems req k ro tool hl hv']

/-- C1 counterexample: an authenticated dry-run request
(`dryRun = true`) for the CRITICAL tool, with a full bucket and no
approval marker, is answered with the approval-pending outcome — not the
dry-run outcome — and a rate token is consumed (5 tokens become 4). This
refutes "the dry-run outcome is returned with highest priority … never
answered with an approval-pending or rate-limited outcome and never
consumes a rate token". -/
theorem C1_counterexample :
    (⟨"drop_all_data", [], true, some "r1"⟩ : ExecuteRequest).dry_run = true ∧
    (execute envA fullBucket 0 0 ⟨"drop_all_data", [], true, some "r1"⟩
        (some "secret-key") false).response =
      .ok ⟨200, false, "r1", "drop_all_data", .approvalInfo true (some "mem-1"),
        some "approval_required", 0, some "CRITICAL"⟩ ∧
    fullBucket.tokens = 5 ∧
    (execute envA fullBucket 0 0 ⟨"drop_all_data", [], true, some "r1"⟩
        (some "secret-key") false).bucket.tokens = 4 := by
  refine ⟨rfl, ?_, rfl, ?_⟩ <;>
    norm_num [execute, rateStep, Bucket.can_consume, validate_key, alreadyApproved, truthy,
      pendingRecord, requestedBy, envA, fullBucket, dropTool, echoTool, List.lookup] <;>
    simp_all

/-- C1 amended: the six outcomes are mutually exclusive, but the fixed
check order of `execute` is unknown-tool, unauthorized, rate-limited,
approval-pending, dry-run, synchronous — dry-run is checked after rate
limiting and approval, so an authenticated dry-run request is answered
rate-limited when the CRITICAL bucket is empty, answered approval-pending
when the tool requires approval and no marker is presented, and consumes a
rate token whenever the tool's tier is CRITICAL; only when neither earlier
gate fires is the dry-run outcome returned. The provider is never invoked
on a dry-run request. -/
theorem C1_amended (env : Env) (bucket : Bucket) (now ems : ℚ)
    (req : ExecuteRequest) (k : Option String) (ro : Bool) (tool : ToolEntry)
    (hl : env.registry.lookup req.tool_name = some tool)
    (hv : validate_key env k ro = true)
    (hd : req.dry_run = true) :
    (execute env bucket now ems req k ro).invoked = [] ∧
    (execute env bucket now ems req k ro).bucket = (rateStep tool bucket now).2 ∧
    ((rateStep tool bucket now).1 = false →
      isRateLimitedOutcome (execute env bucket now ems req k ro).response) ∧
    ((rateStep tool bucket now).1 = true → tool.approval_required = true →
      alreadyApproved req = false →
      isPendingOutcome (execute env bucket now ems req k ro).response) ∧
    ((rateStep tool bucket now).1 = true →
      ¬(tool.approval_required = true ∧ alreadyApproved req = false) →
      isDryRunOutcome (execute env bucket now ems req k ro).response) := by
  by_cases hrs : (rateStep tool bucket now).1 = true
  · by_cases hap : tool.approval_required = true ∧ alreadyApproved req = false
    · rw [execute_pending env bucket now ems req k ro tool hl hv hrs hap.1 hap.2]
      refine ⟨rfl, rfl, ?_, ?_, ?_⟩
      · intro h
        simp [hrs] at h
      · intro _ _ _
        exact ⟨env.store (pendingRecord req k), rfl, rfl⟩
      · intro _ hn
        exact absurd hap hn
    · rw [execute_dry env bucket now ems req k ro tool hl hv hrs hap hd]
      refine ⟨rfl, rfl, ?_, ?_, ?_⟩
      · intro h
        simp [hrs] at h
      · intro _ ha hna
        exact absurd ⟨ha, hna⟩ hap
      · intro _ _
        exact ⟨req.arguments.map Prod.fst, rfl⟩
  · have hrs' : (rateStep tool bucket now).1 = false := by
      cases h : (rateStep tool bucket now).1
      · rfl
      · exact absurd h hrs
    rw [execute_rate_limited env bucket now ems req k ro tool hl hv hrs']
    refine ⟨rfl, rfl, ?_, ?_, ?_⟩
    · intro _
      exact rfl
    · intro h _ _
      simp [hrs'] at h
    · intro h _
      simp [hrs'] at h

/-- Witness for C1 amended: the CRITICAL tool, full bucket, authenticated
dry-run call. -/
theorem C1_amended_witness :
    envA.registry.lookup "drop_all_data" = some dropTool ∧
    validate_key envA (some "secret-key") false = true ∧
    ((execute envA fullBucket 0 0 ⟨"drop_all_data", [], true, some "r1"⟩
        (some "secret-key") false).invoked = [] ∧
      (execute envA fullBucket 0 0 ⟨"drop_all_data", [], true, some "r1"⟩
        (some "secret-key") false).bucket = (rateStep dropTool fullBucket 0).2 ∧
      ((rateStep dropTool fullBucket 0).1 = false →
        isRateLimitedOutcome (execute envA fullBucket 0 0
          ⟨"drop_all_data", [], true, some "r1"⟩ (some "secret-key") false).response) ∧
      ((rateStep dropTool fullBucket 0).1 = true → dropTool.approval_required = true →
        alreadyApproved ⟨"drop_all_data", [], true, some "r1"⟩ = false →
        isPendingOutcome (execute envA fullBucket 0 0
          ⟨"drop_all_data", [], true, some "r1"⟩ (some "secret-key") false).response) ∧
      ((rateStep dropTool fullBucket 0).1 = true →
        ¬(dropTool.approval_required = true ∧
          alreadyApproved ⟨"drop_all_data", [], true, some "r1"⟩ = false) →
        isDryRunOutcome (execute envA fullBucket 0 0
          ⟨"drop_all_data", [], true, some "r1"⟩ (some "secret-key") false).response)) :=
  ⟨by simp [envA, List.lookup], by norm_num [validate_key, envA],
    C1_amended envA fullBucket 0 0 ⟨"drop_all_data", [], true, some "r1"⟩
      (some "secret-key") false dropTool (by simp [envA, List.lookup])
      (by norm_num [validate_key, envA]) rfl⟩

/-- C2 counterexample: an authenticated dry-run call of the LOW-tier
`echo` tool with an empty arguments mapping. The registered parameter list
of `echo` is `["text"]`, but the dry-run `result` carries
`parameters_provided = []` — the keys of the caller-supplied arguments,
not the registry's parameter list (and the governance tier sits in the
top-level `governance_level` field, not inside `result`). -/
theorem C2_counterexample :
    envA.registry.lookup "echo" = some echoTool ∧
    echoTool.parameters.map Param.name = ["text"] ∧
    (execute envA fullBucket 0 0 ⟨"echo", [], true, some "r2"⟩
        (some "secret-key") false).response =
      .ok ⟨200, true, "r2", "echo", .dryRunInfo [], none, 0, some "LOW"⟩ ∧
    ([] : List String) ≠ echoTool.parameters.map Param.name := by
  refine ⟨by simp [envA, List.lookup], by simp [echoTool], ?_, by simp [echoTool]⟩
  norm_num [execute, rateStep, Bucket.can_consume, validate_key, alreadyApproved, truthy,
    envA, fullBucket, dropTool, echoTool, List.lookup] <;> simp_all

/-- C2 amended: a dry-run request never calls the provider's invoke, for
any tool and any auth/approval/rate state; when the dry-run branch is
reached (the tool is registered, auth passes, the rate gate and the
approval gate do not fire first), the response's `result` is the dry-run
object carrying the list of caller-provided argument keys — not the
registered parameter list — and the tool's governance tier is echoed in
the response's top-level `governance_level` field. -/
theorem C2_amended (env : Env) (bucket : Bucket) (now ems : ℚ)
    (req : ExecuteRequest) (k : Option String) (ro : Bool)
    (hd : req.dry_run = true) :
    (execute env bucket now ems req k ro).invoked = [] ∧
    (∀ tool : ToolEntry, env.registry.lookup req.tool_name = some tool →
      validate_key env k ro = true →
      (rateStep tool bucket now).1 = true →
      ¬(tool.approval_required = true ∧ alreadyApproved req = false) →
      (execute env bucket now ems req k ro).response =
        .ok ⟨200, true, req.request_id.getD (genRid req.tool_name now), req.tool_name,
          .dryRunInfo (req.arguments.map Prod.fst),
          none, 0, some tool.rate_limit_level⟩) := by
  refine ⟨execute_dry_no_invoke env bucket now ems req k ro hd, ?_⟩
  intro tool hl hv hrs hap
  rw [execute_dry env bucket now ems req k ro tool hl hv hrs hap hd]

/-- Witness for C2 amended: dry-run call of `echo` with one argument. -/
theorem C2_amended_witness :
    (⟨"echo", [("text", JVal.str "hi")], true, some "r2"⟩ : ExecuteRequest).dry_run = true ∧
    ((execute envA fullBucket 0 0 ⟨"echo", [("text", JVal.str "hi")], true, some "r2"⟩
        (some "secret-key") false).invoked = [] ∧
      (∀ tool : ToolEntry, envA.registry.lookup "echo" = some tool →
        validate_key envA (some "secret-key") false = true →
        (rateStep tool fullBucket 0).1 = true →
        ¬(tool.approval_required = true ∧
          alreadyApproved ⟨"echo", [("text", JVal.str "hi")], true, some "r2"⟩ = false) →
        (execute envA fullBucket 0 0 ⟨"echo", [("text", JVal.str "hi")], true, some "r2"⟩
            (some "secret-key") false).response =
          .ok ⟨200, true, "r2", "echo", .dryRunInfo ["text"], none, 0,
            some tool.rate_limit_level⟩)) :=
  ⟨rfl, C2_amended envA fullBucket 0 0 ⟨"echo", [("text", JVal.str "hi")], true, some "r2"⟩
    (some "secret-key") false rfl⟩

/-- C3 counterexample: the CRITICAL (approval-required) tool, called
without the approval marker while the bucket is empty, is answered with
the rate-limited rejection, not the pending outcome: rate limiting runs
before — and regardless of — the approval step. -/
theorem C3_counterexample :
    dropTool.approval_required = true ∧
    alreadyApproved ⟨"drop_all_data", [("confirm", JVal.str "yes")], false, some "r3"⟩ = false ∧
    (execute envA emptyBucket 0 0
        ⟨"drop_all_data", [("confirm", JVal.str "yes")], false, some "r3"⟩
        (some "secret-key") false).response =
      .error ⟨429, "Critical operation rate limit exceeded"⟩ := by
  refine ⟨rfl, rfl, ?_⟩
  norm_num [execute, rateStep, Bucket.can_consume, validate_key,
    envA, emptyBucket, dropTool, echoTool, List.lookup] <;> simp_all

/-- C3 amended: for a registered approval-required (CRITICAL-tier) tool,
rate limiting is checked before the approval step and each call — with or
without the marker — consumes a rate token, so a phase-1 call with the
bucket empty is rejected rate-limited instead of returning pending.
Provided a token is available: a call without the caller-asserted marker
returns the pending outcome with the provider never invoked, and the same
call repeated with the marker set bypasses the pending step and calls
invoke exactly once. -/
theorem C3_amended (env : Env) (bucket : Bucket) (now ems : ℚ)
    (req : ExecuteRequest) (k : Option String) (ro : Bool) (tool : ToolEntry)
    (hl : env.registry.lookup req.tool_name = some tool)
    (ha : tool.approval_required = true)
    (hv : validate_key env k ro = true)
    (hd : req.dry_run = false)
    (hs : env.serverHasCallTool = true) :
    ((rateStep tool bucket now).1 = false →
      (execute env bucket now ems req k ro).response =
        .error ⟨429, "Critical operation rate limit exceeded"⟩ ∧
      (execute env bucket now ems req k ro).invoked = []) ∧
    ((rateStep tool bucket now).1 = true → alreadyApproved req = false →
      isPendingOutcome (execute env bucket now ems req k ro).response ∧
      (execute env bucket now ems req k ro).invoked = [] ∧
      (execute env bucket now ems req k ro).bucket = (rateStep tool bucket now).2) ∧
    ((rateStep tool bucket now).1 = true → alreadyApproved req = true →
      (execute env bucket now ems req k ro).invoked = [(req.tool_name, req.arguments)] ∧
      (execute env bucket now ems req k ro).bucket = (rateStep tool bucket now).2) := by
  refine ⟨?_, ?_, ?_⟩
  · intro hrs
    rw [execute_rate_limited env bucket now ems req k ro tool hl hv hrs]
    exact ⟨rfl, rfl⟩
  · intro hrs hna
    rw [execute_pending env bucket now ems req k ro tool hl hv hrs ha hna]
    exact ⟨⟨env.store (pendingRecord req k), rfl, rfl⟩, rfl, rfl⟩
  · intro hrs hyes
    have hap : ¬(tool.approval_required = true ∧ alreadyApproved req = false) := by
      intro h
      rw [hyes] at h
      cases h.2
    rw [execute_sync env bucket now ems req k ro tool hl hv hrs hap hd hs]
    exact ⟨rfl, rfl⟩

/-- Witness for C3 amended: the CRITICAL tool with a full bucket;
phase 1 (no marker) pends, phase 2 (marker set) invokes once. -/
theorem C3_amended_witness :
    envA.registry.lookup "drop_all_data" = some dropTool ∧
    dropTool.approval_required = true ∧
    validate_key envA (some "secret-key") false = true ∧
    (((rateStep dropTool fullBucket 0).1 = false →
      (execute envA fullBucket 0 0 ⟨"drop_all_data", [], false, some "r3"⟩
          (some "secret-key") false).response =
        .error ⟨429, "Critical operation rate limit exceeded"⟩ ∧
      (execute envA fullBucket 0 0 ⟨"drop_all_data", [], false, some "r3"⟩
          (some "secret-key") false).invoked = []) ∧
    ((rateStep dropTool fullBucket 0).1 = true →
      alreadyApproved ⟨"drop_all_data", [], false, some "r3"⟩ = false →
      isPendingOutcome (execute envA fullBucket 0 0
          ⟨"drop_all_data", [], false, some "r3"⟩ (some "secret-key") false).response ∧
      (execute envA fullBucket 0 0 ⟨"drop_all_data", [], false, some "r3"⟩
          (some "secret-key") false).invoked = [] ∧
      (execute envA fullBucket 0 0 ⟨"drop_all_data", [], false, some "r3"⟩
          (some "secret-key") false).bucket = (rateStep dropTool fullBucket 0).2) ∧
    ((rateStep dropTool fullBucket 0).1 = true →
      alreadyApproved ⟨"drop_all_data", [], false, some "r3"⟩ = true →
      (execute envA fullBucket 0 0 ⟨"drop_all_data", [], false, some "r3"⟩
          (some "secret-key") false).invoked = [("drop_all_data", [])] ∧
      (execute envA fullBucket 0 0 ⟨"drop_all_data", [], false, some "r3"⟩
          (some "secret-key") false).bucket = (rateStep dropTool fullBucket 0).2)) :=
  ⟨by simp [envA, List.lookup], rfl, by norm_num [validate_key, envA],
    C3_amended envA fullBucket 0 0 ⟨"drop_all_data", [], false, some "r3"⟩
      (some "secret-key") false dropTool (by simp [envA, List.lookup]) rfl
      (by norm_num [validate_key, envA]) rfl rfl⟩

/-- C5: the auth gate passes iff enforcement (`SAFE_MODE`) is disabled,
or the credential header equals the configured secret, or the request
declares itself read-only; and a request for a registered tool that fails
all three is rejected 401 with no side effects — the bucket is unchanged
(no rate token consumed), no approval record is written, and the provider
is not invoked. -/
theorem C5_auth_gate (env : Env) (bucket : Bucket) (now ems : ℚ)
    (req : ExecuteRequest) (k : Option String) (ro : Bool) (tool : ToolEntry)
    (hl : env.registry.lookup req.tool_name = some tool) :
    (validate_key env k ro = true ↔
      (env.safeMode = false ∨ k = some env.apiKey ∨ ro = true)) ∧
    (validate_key env k ro = false →
      (execute env bucket now ems req k ro).response =
        .error ⟨401, "Unauthorized: X-MCP-KEY invalid or missing"⟩ ∧
      (execute env bucket now ems req k ro).bucket = bucket ∧
      (execute env bucket now ems req k ro).written = [] ∧
      (execute env bucket now ems req k ro).invoked = []) := by
  constructor
  · unfold validate_key
    cases hsm : env.safeMode <;> simp [hsm]
  · intro hv
    rw [execute_unauthorized env bucket now ems req k ro tool hl hv]
    exact ⟨rfl, rfl, rfl, rfl⟩

/-- Witness for C5: a wrong key without the read-only declaration against
the registered `echo` tool. -/
theorem C5_auth_gate_witness :
    envA.registry.lookup "echo" = some echoTool ∧
    ((validate_key envA (some "wrong-key") false = true ↔
      (envA.safeMode = false ∨ (some "wrong-key" : Option String) = some envA.apiKey ∨
        false = true)) ∧
    (validate_key envA (some "wrong-key") false = false →
      (execute envA fullBucket 0 0 ⟨"echo", [], false, some "r5"⟩
          (some "wrong-key") false).response =
        .error ⟨401, "Unauthorized: X-MCP-KEY invalid or missing"⟩ ∧
      (execute envA fullBucket 0 0 ⟨"echo", [], false, some "r5"⟩
          (some "wrong-key") false).bucket = fullBucket ∧
      (execute envA fullBucket 0 0 ⟨"echo", [], false, some "r5"⟩
          (some "wrong-key") false).written = [] ∧
      (execute envA fullBucket 0 0 ⟨"echo", [], false, some "r5"⟩
          (some "wrong-key") false).invoked = [])) :=
  ⟨by simp [envA, List.lookup],
    C5_auth_gate envA fullBucket 0 0 ⟨"echo", [], false, some "r5"⟩
      (some "wrong-key") false echoTool (by simp [envA, List.lookup])⟩

/-- C6: when the durable-store write raises while recording a phase-1
approval request, the caller still receives the pending outcome — an HTTP
200 whose `result` carries `approval_required = true` and a null
`memory_id` — the provider is never invoked, nothing is recorded, and no
exception escapes (`execute` returns a response rather than raising). -/
theorem C6_persistence_degraded (env : Env) (bucket : Bucket) (now ems : ℚ)
    (req : ExecuteRequest) (k : Option String) (ro : Bool) (tool : ToolEntry)
    (hl : env.registry.lookup req.tool_name = some tool)
    (hv : validate_key env k ro = true)
    (hrs : (rateStep tool bucket now).1 = true)
    (ha : tool.approval_required = true)
    (hna : alreadyApproved req = false)
    (hstore : env.store (pendingRecord req k) = none) :
    (execute env bucket now ems req k ro).response =
      .ok ⟨200, false, req.request_id.getD (genRid req.tool_name now), req.tool_name,
        .approvalInfo true none, some "approval_required", 0,
        some tool.rate_limit_level⟩ ∧
    (execute env bucket now ems req k ro).invoked = [] ∧
    (execute env bucket now ems req k ro).written = [] := by
  rw [execute_pending env bucket now ems req k ro tool hl hv hrs ha hna]
  rw [hstore]
  exact ⟨rfl, rfl, rfl⟩

/-- Witness for C6: the CRITICAL tool with the store down. -/
theorem C6_persistence_degraded_witness :
    envStoreDown.registry.lookup "drop_all_data" = some dropTool ∧
    validate_key envStoreDown (some "secret-key") false = true ∧
    (rateStep dropTool fullBucket 0).1 = true ∧
    envStoreDown.store (pendingRecord ⟨"drop_all_data", [], false, some "r6"⟩
      (some "secret-key")) = none ∧
    ((execute envStoreDown fullBucket 0 0 ⟨"drop_all_data", [], false, some "r6"⟩
        (some "secret-key") false).response =
      .ok ⟨200, false, "r6", "drop_all_data", .approvalInfo true none,
        some "approval_required", 0, some dropTool.rate_limit_level⟩ ∧
    (execute envStoreDown fullBucket 0 0 ⟨"drop_all_data", [], false, some "r6"⟩
        (some "secret-key") false).invoked = [] ∧
    (execute envStoreDown fullBucket 0 0 ⟨"drop_all_data", [], false, some "r6"⟩
        (some "secret-key") false).written = []) :=
  ⟨by simp [envStoreDown, envA, List.lookup], by norm_num [validate_key, envStoreDown, envA],
    by norm_num [rateStep, Bucket.can_consume, dropTool, fullBucket], rfl,
    C6_persistence_degraded envStoreDown fullBucket 0 0
      ⟨"drop_all_data", [], false, some "r6"⟩ (some "secret-key") false dropTool
      (by simp [envStoreDown, envA, List.lookup])
      (by norm_num [validate_key, envStoreDown, envA])
      (by norm_num [rateStep, Bucket.can_consume, dropTool, fullBucket]) rfl rfl rfl⟩

/-- C7 counterexample: a wire request carrying `background = true` for the
LOW-tier `echo` tool is handled synchronously: the provider is invoked and
awaited, and its payload appears in the response `result` — there is no
acknowledgment envelope. This refutes "the gateway schedules the
invocation without waiting … the provider's invoke result is not awaited
and does not appear in the response": this adapter variant's
`ExecuteRequest` declares no `background` field, so the flag is discarded
at parsing. -/
theorem C7_counterexample :
    (⟨"echo", [("text", JVal.str "hi")], false, true, some "r7"⟩ : WireRequest).background
      = true ∧
    (execute envA fullBucket 0 12
        (parseRequest ⟨"echo", [("text", JVal.str "hi")], false, true, some "r7"⟩)
        (some "secret-key") false).response =
      .ok ⟨200, true, "r7", "echo", .payload (.str "echoed"), none, 12, some "LOW"⟩ ∧
    (execute envA fullBucket 0 12
        (parseRequest ⟨"echo", [("text", JVal.str "hi")], false, true, some "r7"⟩)
        (some "secret-key") false).invoked = [("echo", [("text", JVal.str "hi")])] := by
  refine ⟨rfl, ?_, ?_⟩ <;>
    norm_num [execute, rateStep, Bucket.can_consume, validate_key, alreadyApproved, truthy,
      parseRequest, envA, fullBucket, dropTool, echoTool, List.lookup] <;> simp_all

/-- C7 amended: the cited `ExecuteRequest` model declares no `background`
field, so a `background = true` flag in the request body is discarded by
parsing — the request is processed exactly as the same request with
`background = false` — and an authenticated, unintercepted call is
executed synchronously: the provider is invoked (once) and its awaited
payload is returned in the response. -/
theorem C7_amended (env : Env) (bucket : Bucket) (now ems : ℚ)
    (w : WireRequest) (k : Option String) (ro : Bool) :
    execute env bucket now ems (parseRequest w) k ro =
      execute env bucket now ems
        (parseRequest ⟨w.tool_name, w.arguments, w.dry_run, false, w.request_id⟩) k ro ∧
    (∀ (tool : ToolEntry) (v : JVal),
      env.registry.lookup w.tool_name = some tool →
      validate_key env k ro = true →
      (rateStep tool bucket now).1 = true →
      ¬(tool.approval_required = true ∧ alreadyApproved (parseRequest w) = false) →
      w.dry_run = false →
      env.serverHasCallTool = true →
      env.provider w.tool_name w.arguments = .ok v →
      (execute env bucket now ems (parseRequest w) k ro).invoked =
        [(w.tool_name, w.arguments)] ∧
      (execute env bucket now ems (parseRequest w) k ro).response =
        .ok ⟨200, true, w.request_id.getD (genRid w.tool_name now), w.tool_name,
          .payload v, none, ems, some tool.rate_limit_level⟩) := by
  refine ⟨rfl, ?_⟩
  intro tool v hl hv hrs hap hd hs hp
  rw [execute_sync env bucket now ems (parseRequest w) k ro tool hl hv hrs hap hd hs]
  refine ⟨rfl, ?_⟩
  simp only [parseRequest]
  rw [hp]

/-- Witness for C7 amended: the background-flagged `echo` call. -/
theorem C7_amended_witness :
    envA.registry.lookup "echo" = some echoTool ∧
    envA.provider "echo" [("text", JVal.str "hi")] = .ok (.str "echoed") ∧
    ((execute envA fullBucket 0 12
        (parseRequest ⟨"echo", [("text", JVal.str "hi")], false, true, some "r7"⟩)
        (some "secret-key") false).invoked = [("echo", [("text", JVal.str "hi")])] ∧
    (execute envA fullBucket 0 12
        (parseRequest ⟨"echo", [("text", JVal.str "hi")], false, true, some "r7"⟩)
        (some "secret-key") false).response =
      .ok ⟨200, true, "r7", "echo", .payload (.str "echoed"), none, 12,
        some echoTool.rate_limit_level⟩) :=
  ⟨by simp [envA, List.lookup], rfl,
    (C7_amended envA fullBucket 0 12
        ⟨"echo", [("text", JVal.str "hi")], false, true, some "r7"⟩
        (some "secret-key") false).2 echoTool (.str "echoed")
      (by simp [envA, List.lookup]) (by norm_num [validate_key, envA])
      (by simp [rateStep, echoTool]) (by simp [echoTool]) rfl rfl rfl⟩

/-- C8 counterexample: an unauthenticated request (wrong key, no read-only
declaration, enforcement on) naming a tool absent from the registry is
rejected with the unknown-tool error (HTTP 400), not the unauthorized
rejection (HTTP 401): the registry lookup runs before the auth gate, so an
unauthenticated caller's response does depend on whether the tool name
exists. -/
theorem C8_counterexample :
    validate_key envA (some "wrong-key") false = false ∧
    envA.registry.lookup "no_such_tool" = none ∧
    (execute envA fullBucket 0 0 ⟨"no_such_tool", [], false, some "r8"⟩
        (some "wrong-key") false).response = .error ⟨400, "Unknown tool"⟩ ∧
    (execute envA fullBucket 0 0 ⟨"no_such_tool", [], false, some "r8"⟩
        (some "wrong-key") false).response ≠
      .error ⟨401, "Unauthorized: X-MCP-KEY invalid or missing"⟩ := by
  refine ⟨by simp [validate_key, envA], by simp [envA, List.lookup], ?_, ?_⟩ <;>
    norm_num [execute, envA, List.lookup] <;> simp_all

/-- C8 amended: the registry lookup is evaluated before the auth gate:
an execute request that fails the auth gate is answered with the
unknown-tool rejection when its tool name is absent from the registry, and
with the unauthorized rejection only when the tool exists — so an
unauthenticated caller's response does depend on whether the tool name is
registered. -/
theorem C8_amended (env : Env) (bucket : Bucket) (now ems : ℚ)
    (req : ExecuteRequest) (k : Option String) (ro : Bool)
    (hv : validate_key env k ro = false) :
    (env.registry.lookup req.tool_name = none →
      (execute env bucket now ems req k ro).response = .error ⟨400, "Unknown tool"⟩) ∧
    (∀ tool : ToolEntry, env.registry.lookup req.tool_name = some tool →
      (execute env bucket now ems req k ro).response =
        .error ⟨401, "Unauthorized: X-MCP-KEY invalid or missing"⟩) := by
  constructor
  · intro hl
    rw [execute_unknown_tool env bucket now ems req k ro hl]
  · intro tool hl
    rw [execute_unauthorized env bucket now ems req k ro tool hl hv]

/-- Witness for C8 amended: wrong key against the unknown tool name. -/
theorem C8_amended_witness :
    validate_key envA (some "wrong-key") false = false ∧
    ((envA.registry.lookup "no_such_tool" = none →
      (execute envA fullBucket 0 0 ⟨"no_such_tool", [], false, some "r8"⟩
          (some "wrong-key") false).response = .error ⟨400, "Unknown tool"⟩) ∧
    (∀ tool : ToolEntry, envA.registry.lookup "no_such_tool" = some tool →
      (execute envA fullBucket 0 0 ⟨"no_such_tool", [], false, some "r8"⟩
          (some "wrong-key") false).response =
        .error ⟨401, "Unauthorized: X-MCP-KEY invalid or missing"⟩)) :=
  ⟨by simp [validate_key, envA],
    C8_amended envA fullBucket 0 0 ⟨"no_such_tool", [], false, some "r8"⟩
      (some "wrong-key") false (by simp [validate_key, envA])⟩

theorem mem_insertReplace {reg : List (String × ToolEntry)} {k : String}
    {v : ToolEntry} {p : String × ToolEntry}
    (hp : p ∈ insertReplace reg k v) : p ∈ reg ∨ p = (k, v) := by
  unfold insertReplace at hp
  by_cases h : reg.any (fun q => q.1 = k)
  · rw [if_pos h] at hp
    obtain ⟨q, hq, hq2⟩ := List.mem_map.mp hp
    by_cases hk : q.1 = k
    · rw [if_pos hk] at hq2
      right
      exact hq2.symm
    · rw [if_neg hk] at hq2
      left
      rw [← hq2]
      exact hq
  · rw [if_neg h] at hp
    rcases List.mem_append.mp hp with h1 | h1
    · left
      exact h1
    · right
      simpa using h1

theorem build_registry_fold_mem (raws : List ToolRaw) :
    ∀ (acc : List (String × ToolEntry)),
      (∀ q ∈ acc, ∃ t : ToolRaw, q = (t.name, buildEntry t)) →
      ∀ q ∈ raws.foldl (fun reg t => insertReplace reg t.name (buildEntry t)) acc,
        ∃ t : ToolRaw, q = (t.name, buildEntry t) := by
  induction raws with
  | nil =>
    intro acc hacc q hq
    exact hacc q hq
  | cons t ts ih =>
    intro acc hacc q hq
    refine ih (insertReplace acc t.name (buildEntry t)) ?_ q hq
    intro r hr
    rcases mem_insertReplace hr with h1 | h1
    · exact hacc r h1
    · exact ⟨t, h1⟩

/-- Every binding of a built registry is a `(name, buildEntry t)` pair for
some raw descriptor `t`. -/
theorem mem_build_registry (raws : List ToolRaw) (p : String × ToolEntry)
    (hp : p ∈ build_registry raws) : ∃ t : ToolRaw, p = (t.name, buildEntry t) :=
  build_registry_fold_mem raws [] (by simp) p hp

/-- The coupling `approval_required ↔ tier = CRITICAL` holds for every
entry `buildEntry` produces. -/
theorem buildEntry_approval_iff (t : ToolRaw) :
    (buildEntry t).approval_required = true ↔
      (buildEntry t).rate_limit_level = "CRITICAL" := by
  unfold buildEntry
  cases hg : t.governance with
  | none => simp
  | some g =>
    cases hl : g.level with
    | none => simp [hl]
    | some lvl => simp [hl]

/-- C9 counterexample: a descriptor whose governance classification
carries the unrecognized tier string `"EXPERIMENTAL"` is not assigned the
middle tier MEDIUM — the Registry Builder stores the unknown string
unchanged. This refutes "a descriptor whose governance classification is
unknown or missing is assigned the middle tier MEDIUM". -/
theorem C9_counterexample :
    (build_registry [⟨"exp_tool", "", none, some ⟨some "EXPERIMENTAL", true⟩⟩]).lookup
        "exp_tool" =
      some (buildEntry ⟨"exp_tool", "", none, some ⟨some "EXPERIMENTAL", true⟩⟩) ∧
    (buildEntry ⟨"exp_tool", "", none, some ⟨some "EXPERIMENTAL", true⟩⟩).rate_limit_level =
      "EXPERIMENTAL" ∧
    (buildEntry ⟨"exp_tool", "", none, some ⟨some "EXPERIMENTAL", true⟩⟩).rate_limit_level ≠
      "MEDIUM" := by
  refine ⟨?_, rfl, by simp [buildEntry]⟩
  simp [build_registry, insertReplace, List.lookup]

/-- C9 amended: in every registry the Builder produces,
`approval_required` is true iff the stored governance tier is CRITICAL
(never set independently); a descriptor with no governance classification,
or one whose classification lacks a level, is assigned the middle tier
MEDIUM (never the least restrictive tier) with approval not required; but
a classification carrying an unrecognized level string is stored unchanged
rather than being normalized to MEDIUM. -/
theorem C9_amended (raws : List ToolRaw) :
    (∀ p ∈ build_registry raws,
      p.2.approval_required = true ↔ p.2.rate_limit_level = "CRITICAL") ∧
    (∀ t : ToolRaw, t.governance = none →
      (buildEntry t).rate_limit_level = "MEDIUM" ∧
        (buildEntry t).approval_required = false) ∧
    (∀ (t : ToolRaw) (g : Gov), t.governance = some g → g.level = none →
      (buildEntry t).rate_limit_level = "MEDIUM" ∧
        (buildEntry t).approval_required = false) ∧
    (∀ (t : ToolRaw) (g : Gov) (lvl : String),
      t.governance = some g → g.level = some lvl →
      (buildEntry t).rate_limit_level = lvl) := by
  refine ⟨?_, ?_, ?_, ?_⟩
  · intro p hp
    obtain ⟨t, ht⟩ := mem_build_registry raws p hp
    rw [ht]
    exact buildEntry_approval_iff t
  · intro t hg
    unfold buildEntry
    rw [hg]
    simp
  · intro t g hg hl
    unfold buildEntry
    rw [hg]
    simp [hl]
  · intro t g lvl hg hl
    unfold buildEntry
    rw [hg]
    simp [hl]

/-- Witness for C9 amended: a one-descriptor registry with no governance
classification gets tier MEDIUM and no approval requirement. -/
theorem C9_amended_witness :
    (⟨"plain_tool", "", none, none⟩ : ToolRaw).governance = none ∧
    (buildEntry ⟨"plain_tool", "", none, none⟩).rate_limit_level = "MEDIUM" ∧
    (buildEntry ⟨"plain_tool", "", none, none⟩).approval_required = false ∧
    (∀ p ∈ build_registry [⟨"plain_tool", "", none, none⟩],
      p.2.approval_required = true ↔ p.2.rate_limit_level = "CRITICAL") :=
  ⟨rfl,
    ((C9_amended [⟨"plain_tool", "", none, none⟩]).2.1 ⟨"plain_tool", "", none, none⟩ rfl).1,
    ((C9_amended [⟨"plain_tool", "", none, none⟩]).2.1 ⟨"plain_tool", "", none, none⟩ rfl).2,
    (C9_amended [⟨"plain_tool", "", none, none⟩]).1⟩

/-- C10: the caller-asserted approval marker is read from the arguments
mapping under the key `"_approved"` (the `ExecuteRequest` model has no
dedicated top-level approval field); the arguments mapping — including
that key when present — is persisted verbatim in the approval record, and
on an approved call it is forwarded unchanged to the provider's invoke. -/
theorem C10_approval_marker (env : Env) (bucket : Bucket) (now ems : ℚ)
    (req : ExecuteRequest) (k : Option String) (ro : Bool) (tool : ToolEntry)
    (hl : env.registry.lookup req.tool_name = some tool)
    (hv : validate_key env k ro = true)
    (hrs : (rateStep tool bucket now).1 = true)
    (ha : tool.approval_required = true)
    (hd : req.dry_run = false)
    (hs : env.serverHasCallTool = true) :
    alreadyApproved req =
      truthy ((req.arguments.lookup "_approved").getD (JVal.bool false)) ∧
    (pendingRecord req k).arguments = req.arguments ∧
    (∀ mid : String, alreadyApproved req = false →
      env.store (pendingRecord req k) = some mid →
      (execute env bucket now ems req k ro).written = [pendingRecord req k]) ∧
    (alreadyApproved req = true →
      (execute env bucket now ems req k ro).invoked =
        [(req.tool_name, req.arguments)]) := by
  refine ⟨rfl, rfl, ?_, ?_⟩
  · intro mid hna hst
    rw [execute_pending env bucket now ems req k ro tool hl hv hrs ha hna]
    simp [hst]
  · intro hyes
    have hap : ¬(tool.approval_required = true ∧ alreadyApproved req = false) := by
      intro h
      rw [hyes] at h
      cases h.2
    rw [execute_sync env bucket now ems req k ro tool hl hv hrs hap hd hs]

/-- Witness for C10: phase 2 of the CRITICAL tool with the
`"_approved"` marker present in the arguments. -/
theorem C10_approval_marker_witness :
    envA.registry.lookup "drop_all_data" = some dropTool ∧
    alreadyApproved
      ⟨"drop_all_data", [("_approved", JVal.bool true)], false, some "r10"⟩ = true ∧
    ((pendingRecord ⟨"drop_all_data", [("_approved", JVal.bool true)], false, some "r10"⟩
        (some "secret-key")).arguments = [("_approved", JVal.bool true)] ∧
    (alreadyApproved
        ⟨"drop_all_data", [("_approved", JVal.bool true)], false, some "r10"⟩ = true →
      (execute envA fullBucket 0 0
          ⟨"drop_all_data", [("_approved", JVal.bool true)], false, some "r10"⟩
          (some "secret-key") false).invoked =
        [("drop_all_data", [("_approved", JVal.bool true)])])) :=
  ⟨by simp [envA, List.lookup], rfl,
    (C10_approval_marker envA fullBucket 0 0
        ⟨"drop_all_data", [("_approved", JVal.bool true)], false, some "r10"⟩
        (some "secret-key") false dropTool (by simp [envA, List.lookup])
        (by norm_num [validate_key, envA])
        (by norm_num [rateStep, Bucket.can_consume, dropTool, fullBucket]) rfl rfl rfl).2.1,
    (C10_approval_marker envA fullBucket 0 0
        ⟨"drop_all_data", [("_approved", JVal.bool true)], false, some "r10"⟩
        (some "secret-key") false dropTool (by simp [envA, List.lookup])
        (by norm_num [validate_key, envA])
        (by norm_num [rateStep, Bucket.can_consume, dropTool, fullBucket]) rfl rfl rfl).2.2.2⟩
